import Mathlib

/-!
Verification of the Zapwire client wrapper (src/client.ts) and its React
hook adapters (src/react-hooks.ts, the `useZapwire` hook embedded alongside
the client) against the repository specification.

The TypeScript source is shallowly embedded: JavaScript values that flow
through the wrapper are modelled by the inductive `JsVal`; the stateful
retry/reconnect machinery of `Zapwire.ping` / `Zapwire.reconnect` is
modelled as a fuel-indexed function over an explicit response oracle that
also records a trace of observable events; socket state for the
listen/cleanup claims is modelled as a map from socket ids to `Socket`
records.  Each definition mirrors one function of the source.
-/

/-- A JavaScript (JSON-like) runtime value, as far as the wrapper
inspects or builds such values.  Cyclic objects are not representable;
every payload modelled here is a finite acyclic structure. -/
inductive JsVal where
  | vUndefined : JsVal
  | vNull : JsVal
  | vBool (b : Bool) : JsVal
  | vNum (n : Int) : JsVal
  | vStr (s : String) : JsVal
  | vObj (fields : List (String × JsVal)) : JsVal

/-- JavaScript `typeof` on the modelled values (`typeof null` is
`"object"` in JavaScript). -/
def typeofJs : JsVal → String
  | .vUndefined => "undefined"
  | .vNull => "object"
  | .vBool _ => "boolean"
  | .vNum _ => "number"
  | .vStr _ => "string"
  | .vObj _ => "object"

/-- JavaScript property access `v.name`: the field's value on an object
that has the field, `undefined` otherwise. -/
def getField (name : String) : JsVal → JsVal
  | .vObj fields =>
    match fields.lookup name with
    | some v => v
    | none => .vUndefined
  | _ => .vUndefined

/-- `Zapwire.determinePingTo` (src/client.ts lines 212-218):
`let pingTo = this.key; if (pingType !== 'self' && pingType !== 'public')
pingTo = pingType; return pingTo!;`.  The wrapper's possibly-unset bound
key is an `Option String`. -/
def determinePingTo (pingType : String) (key : Option String) : Option String :=
  if pingType ≠ "self" ∧ pingType ≠ "public" then some pingType else key

/-- `Zapwire.determinePingRoute` (src/client.ts lines 225-231):
`let pingRoute = "/self"; if (pingType === 'public') pingRoute = "/public";`. -/
def determinePingRoute (pingType : String) : String :=
  if pingType = "public" then "/public" else "/self"

/-- Claim C4, counterexample: the claim says scope `"public"` omits the
key, but `determinePingTo "public"` returns the wrapper's own bound key
unchanged — for a wrapper bound to key `"k"` the resolved target is
`some "k"`, not `none` (omitted). -/
theorem C4_public_key_not_omitted :
    determinePingTo "public" (some "k") = some "k" ∧
    determinePingTo "public" (some "k") ≠ none := by
  constructor
  · rfl
  · intro h
    simp [determinePingTo] at h

/-- Claim C4 (amended): scope `"self"` resolves to the wrapper's own
bound key; scope `"public"` also resolves to the wrapper's own bound key
(the key is not omitted) and uses the public route; any other scope
string is used verbatim as the explicit target key; every scope other
than `"public"` uses the self route. -/
theorem C4_ping_target_and_route (pt : String) (key : Option String) :
    determinePingTo "self" key = key ∧
    determinePingTo "public" key = key ∧
    (pt ≠ "self" → pt ≠ "public" → determinePingTo pt key = some pt) ∧
    determinePingRoute "public" = "/public" ∧
    (pt ≠ "public" → determinePingRoute pt = "/self") := by
  refine ⟨?_, ?_, ?_, ?_, ?_⟩
  · simp [determinePingTo]
  · simp [determinePingTo]
  · intro h1 h2
    simp [determinePingTo, h1, h2]
  · rfl
  · intro h
    simp [determinePingRoute, h]

/-- Witness for C4_ping_target_and_route at the concrete scopes
`"self"`, `"public"`, `"other"` and bound key `"k"`. -/
theorem C4_ping_target_and_route_witness :
    determinePingTo "self" (some "k") = some "k" ∧
    determinePingTo "public" (some "k") = some "k" ∧
    determinePingTo "other" (some "k") = some "other" ∧
    determinePingRoute "public" = "/public" ∧
    determinePingRoute "other" = "/self" := by
  have h := C4_ping_target_and_route "other" (some "k")
  exact ⟨h.1, h.2.1, h.2.2.1 (by decide) (by decide), h.2.2.2.1,
    h.2.2.2.2 (by decide)⟩

/-- An HTTP response as `Zapwire.ping` inspects it: the `ok` flag, the
numeric status, and the `success` flag of the parsed JSON body. -/
structure Resp where
  ok : Bool
  status : Nat
  success : Bool

/-- Observable events of one `broadcast`/`ping`/`reconnect` call chain,
in program order. -/
inductive Ev where
  /-- the `await this.channelIDPromise` in `broadcast` completed, i.e.
  the handshake promise settled (resolved). -/
  | handshakeSettled : Ev
  /-- `sendPingRequest` issued an HTTP POST to `route` with the given
  target `key` and `payload`. -/
  | send (route : String) (key : Option String) (payload : JsVal) : Ev
  /-- the `fetch` (or body parse) rejected with a network error. -/
  | fetchRejected (e : String) : Ev
  /-- `ping` threw "Reconnection attempts exhausted" (caught by its own
  catch block). -/
  | exhaustedThrown : Ev
  /-- `ping` threw "Request failed with status ..." for a non-401
  failure (caught by its own catch block). -/
  | httpErrorThrown (status : Nat) : Ev
  /-- `reconnect` re-ran `configure` (a fresh handshake). -/
  | handshakeRedo : Ev
  /-- `reconnect` fired off `this.broadcast(payload, pingType)` without
  awaiting it (a concurrently spawned duplicate send chain). -/
  | spawnBroadcast (payload : JsVal) (scope : String) : Ev
  /-- `reconnect` took its `else` branch and logged
  "Reconnection attempts exhausted.". -/
  | reconnectGaveUp : Ev

/-- `Zapwire.reconnect` (src/client.ts lines 295-316), under the
assumption that the fresh handshake of the `≤ 3` branch resolves (the
success scenario of the claims; if it never settles, `reconnect` — and
with it the whole call chain — suspends forever).  Takes the value of
`this.reconnectAttempts` on entry and returns its value on exit
together with the events performed.  Both branches end with the
unconditional `this.reconnectAttempts = 0` of line 315. -/
def reconnectModel (payload : JsVal) (pingType : String) (attempts : Nat) :
    Nat × List Ev :=
  let a := attempts + 1
  if a ≤ 3 then
    (0, [Ev.handshakeRedo, Ev.spawnBroadcast payload pingType])
  else
    (0, [Ev.reconnectGaveUp])

/-- Result of running the `Zapwire.ping` model: `result = none` means
the available fuel ran out with the recursion still going (the source
has no fuel bound — such a run simply has not terminated yet);
`attempts` is `this.reconnectAttempts` afterwards, `nextIdx` the index
of the next HTTP send, `trace` the events performed. -/
structure PingRes where
  result : Option Bool
  attempts : Nat
  nextIdx : Nat
  trace : List Ev

/-- `Zapwire.ping` (src/client.ts lines 175-205).  `oracle i` is the
outcome of the `i`-th HTTP send of the call chain: `Except.error` for a
rejected `fetch` (network error), `Except.ok r` for a response `r`.
Mirrors the source: on a 401 with `reconnectAttempts < 3` it increments
the counter, awaits `handleUnauthorizedError` (= `reconnect`, which
increments again and then resets the counter to 0), and recurses; on a
401 with the counter at 3 it throws, on any other non-ok status it
throws, and its own catch block converts every throw (and a rejected
fetch) into the return value `false`; on success it resets the counter
to 0 and returns the body's `success` flag. -/
def pingModel (key : Option String) (oracle : Nat → Except String Resp)
    (payload : JsVal) (pingType : String) :
    Nat → Nat → Nat → PingRes
  | 0, i, a => ⟨none, a, i, []⟩
  | fuel + 1, i, a =>
    let pingTo := determinePingTo pingType key
    let pingRoute := determinePingRoute pingType
    let sendEv := Ev.send pingRoute pingTo payload
    match oracle i with
    | .error e => ⟨some false, a, i + 1, [sendEv, Ev.fetchRejected e]⟩
    | .ok r =>
      if r.ok then
        ⟨some r.success, 0, i + 1, [sendEv]⟩
      else if r.status = 401 then
        if a < 3 then
          let ra := reconnectModel payload pingType (a + 1)
          let rest := pingModel key oracle payload pingType fuel (i + 1) ra.1
          ⟨rest.result, rest.attempts, rest.nextIdx, sendEv :: ra.2 ++ rest.trace⟩
        else
          ⟨some false, a, i + 1, [sendEv, Ev.exhaustedThrown]⟩
      else
        ⟨some false, a, i + 1, [sendEv, Ev.httpErrorThrown r.status]⟩

/-- The settled state of the handshake promise `channelIDPromise` that
`broadcast` awaits. -/
inductive Handshake where
  | resolvedWith (cid : String) : Handshake
  | rejectedWith (msg : String) : Handshake

/-- `Zapwire.broadcast` (src/client.ts lines 153-167) on a wrapper whose
handshake promise settles as `hs`: `await this.channelIDPromise` either
throws (rejected handshake — caught, yielding `false` with no send) or
completes, after which `ping` runs.  Returns the resolved value
(`none` while fuel ran out mid-retry) and the event trace. -/
def broadcastModel (key : Option String) (hs : Handshake)
    (oracle : Nat → Except String Resp) (payload : JsVal) (scope : String)
    (fuel : Nat) : Option Bool × List Ev :=
  match hs with
  | .rejectedWith _ => (some false, [])
  | .resolvedWith _ =>
    let r := pingModel key oracle payload scope fuel 0 0
    (r.result, Ev.handshakeSettled :: r.trace)

/-- A response oracle that answers every send with an unauthorized
(401, not ok) response. -/
def all401 : Nat → Except String Resp := fun _ => Except.ok ⟨false, 401, false⟩

/-- Number of HTTP sends recorded in a trace. -/
def countSends (evs : List Ev) : Nat :=
  evs.countP fun e => match e with | .send _ _ _ => true | _ => false

/-- Whether a trace contains the "Reconnection attempts exhausted"
throw of `ping` (the give-up of the claims). -/
def hasExhausted (evs : List Ev) : Bool :=
  evs.any fun e => match e with | .exhaustedThrown => true | _ => false

/-- Under persistent 401 responses the retry recursion of `ping` never
reaches a result: every iteration runs with `reconnectAttempts = 0`,
because `reconnect` resets the counter to 0 before `ping` re-checks it. -/
theorem ping_all401_pending (key : Option String) (p : JsVal) (s : String) :
    ∀ fuel i, (pingModel key all401 p s fuel i 0).result = none := by
  intro fuel
  induction fuel with
  | zero => intro i; rfl
  | succ n ih =>
    intro i
    simp only [pingModel, all401, reconnectModel]
    exact ih (i + 1)

/-- Claim C1, code bug: with every ping response a 401 and every fresh
handshake succeeding, the send is NOT retried at most 3 times before
giving up.  `reconnect` resets `reconnectAttempts` to 0 at its end
(src/client.ts line 315), so the `reconnectAttempts < 3` guard in
`ping` always sees 0 and the chain retries without bound: for every
fuel the run is still pending (first conjunct), and concretely within
fuel 5 the chain has already issued 5 HTTP sends (the initial send plus
4 retries, exceeding the claimed 3) without ever reaching the
exhaustion throw, with the counter back at 0. -/
theorem C1_unbounded_retry_bug :
    (∀ fuel i,
      (pingModel (some "k") all401 (JsVal.vObj []) "self" fuel i 0).result = none) ∧
    countSends (pingModel (some "k") all401 (JsVal.vObj []) "self" 5 0 0).trace = 5 ∧
    hasExhausted (pingModel (some "k") all401 (JsVal.vObj []) "self" 5 0 0).trace
      = false ∧
    (pingModel (some "k") all401 (JsVal.vObj []) "self" 5 0 0).attempts = 0 := by
  refine ⟨ping_all401_pending (some "k") (JsVal.vObj []) "self", ?_, ?_, ?_⟩
  · rfl
  · rfl
  · rfl

/-- Claim C2: no failure escapes `broadcast` as an exception — a
rejected handshake promise, a network error (rejected fetch), exhausted
401 retries, and any other non-ok status each resolve the call to the
boolean `false`.  (Throw sites inside `ping` are caught by its own
catch block; the rejected handshake is caught by `broadcast`.) -/
theorem C2_broadcast_never_throws (key : Option String)
    (oracle : Nat → Except String Resp) (p : JsVal) (cid s msg e : String)
    (fuel i a : Nat) :
    (broadcastModel key (.rejectedWith msg) oracle p s fuel).1 = some false ∧
    (broadcastModel key (.resolvedWith cid) (fun _ => Except.error e) p s
      (fuel + 1)).1 = some false ∧
    (pingModel key (fun _ => Except.error e) p s (fuel + 1) i a).result
      = some false ∧
    (pingModel key (fun _ => Except.ok ⟨false, 401, false⟩) p s (fuel + 1) i 3).result
      = some false ∧
    (pingModel key (fun _ => Except.ok ⟨false, 500, false⟩) p s (fuel + 1) i a).result
      = some false := by
  refine ⟨rfl, ?_, ?_, ?_, ?_⟩ <;> simp [broadcastModel, pingModel]

/-- `true` iff the trace performs an HTTP send before the handshake
promise has settled. -/
def sendBeforeHandshake : List Ev → Bool
  | [] => false
  | e :: rest =>
    match e with
    | .handshakeSettled => false
    | .send _ _ _ => true
    | _ => sendBeforeHandshake rest

/-- Claim C3: for every payload and scope `"self"`, `broadcast` issues
no HTTP ping send before the handshake promise installed on the
instance has settled: in every run the first event is the settling of
the awaited handshake promise, and a rejected handshake produces no
send at all.  (A never-settling handshake keeps `broadcast` suspended
at the `await` with no send, which the model represents by having
traces only for settled handshakes.) -/
theorem C3_no_send_before_handshake (key : Option String) (hs : Handshake)
    (oracle : Nat → Except String Resp) (p : JsVal) (fuel : Nat) :
    sendBeforeHandshake (broadcastModel key hs oracle p "self" fuel).2 = false := by
  cases hs <;> rfl

/-- The wrapper's channel binding fields `this.channelID` (initially
`null`) and `this.key` (initially `undefined`), as JavaScript values. -/
structure Binding where
  channelID : JsVal
  key : JsVal

/-- The settled state a handshake promise reaches when its executor's
`resolve`/`reject` is called. -/
inductive PromiseState where
  | resolvedWith (v : String) : PromiseState
  | rejectedWith (msg : String) : PromiseState

/-- The value `Zapwire.configure` passes to
`this.socket.emit("config", channelID && { channelID, info })`
(src/client.ts line 104): for a truthy (non-empty) channelID the
`{channelID, info}` object, for the falsy `""` the falsy left operand
of `&&` itself. -/
def configureEmit (channelID : String) (info : JsVal) : JsVal :=
  if channelID ≠ "" then
    JsVal.vObj [("channelID", JsVal.vStr channelID), ("info", info)]
  else
    JsVal.vStr channelID

/-- The `socket.on("config", ...)` handler installed by
`Zapwire.configure` (src/client.ts lines 93-102), run when the server
replies with `configData`: for a truthy supplied channelID it stores
`configData.channelID` / `configData.key` into the binding and resolves
the promise with the supplied channelID; for a falsy supplied channelID
it rejects. -/
def configureOnReply (channelID : String) (b : Binding) (configData : JsVal) :
    Binding × PromiseState :=
  if channelID ≠ "" then
    (⟨getField "channelID" configData, getField "key" configData⟩,
      .resolvedWith channelID)
  else
    (b, .rejectedWith "Invalid channelID received from the server.")

/-- Claim C5, counterexample: the claim says every supplied channelID
makes `configure` emit a handshake request carrying `{channelID, info}`,
but for the falsy channelID `""` the emitted value is the falsy string
itself (`channelID && {...}` evaluates to its left operand), not the
`{channelID, info}` object. -/
theorem C5_falsy_emit_counterexample :
    configureEmit "" (JsVal.vObj []) = JsVal.vStr "" ∧
    JsVal.vStr "" ≠
      JsVal.vObj [("channelID", JsVal.vStr ""), ("info", JsVal.vObj [])] := by
  exact ⟨rfl, fun h => JsVal.noConfusion h⟩

/-- Claim C5 (amended): for every truthy (non-empty) supplied channelID,
`configure` emits a handshake request carrying `{channelID, info}` and
installs a promise whose handler, on a server reply, stores the reply's
`{channelID, key}` binding and resolves with the channelID; if the
supplied channelID is falsy, `configure` emits the falsy channelID
value itself, the handler rejects the promise on the server's reply,
and the rejection surfaces as `broadcast` returning `false`. -/
theorem C5_configure_handshake (cid : String) (info reply : JsVal) (b : Binding)
    (oracle : Nat → Except String Resp) (key : Option String) (p : JsVal)
    (s msg : String) (fuel : Nat) :
    (cid ≠ "" →
      configureEmit cid info =
        JsVal.vObj [("channelID", JsVal.vStr cid), ("info", info)] ∧
      configureOnReply cid b reply =
        (⟨getField "channelID" reply, getField "key" reply⟩, .resolvedWith cid)) ∧
    configureEmit "" info = JsVal.vStr "" ∧
    (configureOnReply "" b reply).2 =
      .rejectedWith "Invalid channelID received from the server." ∧
    (broadcastModel key (.rejectedWith msg) oracle p s fuel).1 = some false := by
  refine ⟨?_, rfl, rfl, rfl⟩
  intro h
  exact ⟨by simp [configureEmit, h], by simp [configureOnReply, h]⟩

/-- Witness for C5_configure_handshake at the concrete channelID
`"abc"`, empty info/reply objects, the initial binding, an all-success
oracle and scope `"self"`. -/
theorem C5_configure_handshake_witness :
    (configureEmit "abc" (JsVal.vObj []) =
      JsVal.vObj [("channelID", JsVal.vStr "abc"), ("info", JsVal.vObj [])] ∧
     configureOnReply "abc" ⟨JsVal.vNull, JsVal.vUndefined⟩ (JsVal.vObj []) =
      (⟨getField "channelID" (JsVal.vObj []), getField "key" (JsVal.vObj [])⟩,
        .resolvedWith "abc")) ∧
    configureEmit "" (JsVal.vObj []) = JsVal.vStr "" ∧
    (configureOnReply "" ⟨JsVal.vNull, JsVal.vUndefined⟩ (JsVal.vObj [])).2 =
      .rejectedWith "Invalid channelID received from the server." ∧
    (broadcastModel (some "k") (.rejectedWith "rejected")
      (fun _ => Except.ok ⟨true, 200, true⟩) (JsVal.vObj []) "self" 1).1
      = some false := by
  have h := C5_configure_handshake "abc" (JsVal.vObj []) (JsVal.vObj [])
    ⟨JsVal.vNull, JsVal.vUndefined⟩ (fun _ => Except.ok ⟨true, 200, true⟩)
    (some "k") (JsVal.vObj []) "self" "rejected" 1
  exact ⟨h.1 (by decide), h.2.1, h.2.2.1, h.2.2.2⟩

/-- An HTTP POST request as built by the wrapper: target path and JSON
body. -/
structure HttpPost where
  path : String
  body : JsVal

/-- The request `Zapwire.channelExist` issues (src/client.ts lines
54-62): POST `{channelID}` to the fixed existence-check path. -/
def channelExistRequest (channelID : String) : HttpPost :=
  ⟨"/ping/check-existence", JsVal.vObj [("channelID", JsVal.vStr channelID)]⟩

/-- `Zapwire.channelExist` (src/client.ts lines 53-66) applied to the
outcome of `fetch`+`response.json()`: there is no try/catch, so a
network or parse error propagates to the caller unchanged; otherwise
the function returns `result.existence` (whatever JavaScript value that
field holds, `undefined` if absent). -/
def channelExist (fetchResult : Except String JsVal) : Except String JsVal :=
  match fetchResult with
  | .error e => .error e
  | .ok body => .ok (getField "existence" body)

/-- Claim C6: `channelExist` POSTs `{channelID}` to the existence-check
path; on a network or parse error it does not produce a boolean but
propagates the failure; on a JSON reply it returns the reply's
`existence` field, so it returns `true` exactly when that field is the
boolean `true` — in particular, on the endpoint's documented reply
shape `{existence: b}` it returns `true` iff `b` is `true`. -/
theorem C6_channelExist_spec (cid e : String) (body : JsVal) (b : Bool) :
    channelExistRequest cid =
      ⟨"/ping/check-existence", JsVal.vObj [("channelID", JsVal.vStr cid)]⟩ ∧
    channelExist (Except.error e) = Except.error e ∧
    (channelExist (Except.ok body) = Except.ok (JsVal.vBool true) ↔
      getField "existence" body = JsVal.vBool true) ∧
    (channelExist (Except.ok (JsVal.vObj [("existence", JsVal.vBool b)])) =
        Except.ok (JsVal.vBool true) ↔ b = true) := by
  refine ⟨rfl, rfl, ?_, ?_⟩
  · constructor
    · intro h
      injection h with h1
    · intro h
      simp [channelExist, h]
  · constructor
    · intro h
      cases b with
      | true => rfl
      | false => simp [channelExist, getField] at h
    · intro h
      subst h
      rfl

/-- Observable events of the `useZap` hook lifecycle.  Wrapper
instances are identified by allocation id. -/
inductive HookEv where
  /-- `new Zapwire(channelID, config)` ran inside the effect. -/
  | constructWrapper (id : Nat) : HookEv
  /-- `newZapwire.listen(...)` registered the state-feeding listener. -/
  | listenRegister (id : Nat) : HookEv
  /-- `zapwire.cleanup()` ran on the wrapper with the given id. -/
  | cleanupCall (id : Nat) : HookEv

/-- The body of the `useEffect` in `useZap` (src/react-hooks.ts lines
31-58): `initZapwire` constructs a fresh wrapper, stores it with
`setZapwire` (updating the state used by LATER renders), and registers
a listener; the value returned to React is the cleanup closure
`() => { if (zapwire) zapwire.cleanup(); }`, which closes over the
`zapwire` binding OF THE RENDER IN WHICH THE EFFECT RAN
(`snapshotZapwire`), not over the later committed state.  Returns the
events performed, the new committed `zapwire` state, and the retained
cleanup closure. -/
def useZapEffect (snapshotZapwire : Option Nat) (freshId : Nat) :
    List HookEv × Option Nat × (Unit → List HookEv) :=
  ([HookEv.constructWrapper freshId, HookEv.listenRegister freshId],
   some freshId,
   fun _ =>
     match snapshotZapwire with
     | some id => [HookEv.cleanupCall id]
     | none => [])

/-- Mount-then-unmount of `useZap` under React function-component
semantics: the mount render sees the initial `useState` value
`zapwire = null`; the effect (deps `[channelID]`) runs once with that
snapshot; the `setZapwire` re-render does not re-run the effect because
the deps are unchanged, so the cleanup closure retained by React is the
one from the mount render; unmount invokes that closure. -/
def mountUnmountEvents : List HookEv :=
  let mountSnapshot : Option Nat := none
  let r := useZapEffect mountSnapshot 0
  r.1 ++ r.2.2 ()

/-- Number of wrapper constructions in a hook event list. -/
def countConstructions (evs : List HookEv) : Nat :=
  evs.countP fun e => match e with | .constructWrapper _ => true | _ => false

/-- Number of `cleanup()` calls in a hook event list. -/
def countCleanups (evs : List HookEv) : Nat :=
  evs.countP fun e => match e with | .cleanupCall _ => true | _ => false

/-- Claim C7, code bug: mounting the hook and then unmounting performs
exactly one wrapper construction but ZERO cleanup calls, not the one
cleanup call the claim requires — the effect's cleanup closure captured
the mount render's `zapwire` state, which is still `null` (the
`setZapwire` result is only visible to later renders), so its
`if (zapwire)` guard is falsy on unmount and `cleanup()` never runs. -/
theorem C7_stale_cleanup_bug :
    countConstructions mountUnmountEvents = 1 ∧
    countCleanups mountUnmountEvents = 0 := by
  exact ⟨rfl, rfl⟩

/-- The `{data, type}` envelope both hook broadcasts build:
`{ data: payload, type: typeof payload }`. -/
def broadcastEnvelope (payload : JsVal) : JsVal :=
  JsVal.vObj [("data", payload), ("type", JsVal.vStr (typeofJs payload))]

/-- The payload the `useZapwire` hook variant (embedded in
src/client.ts, lines 352-371) forwards: it wraps only when
`typeof payload !== "object"`. -/
def useZapwireBroadcastPayload (payload : JsVal) : JsVal :=
  if typeofJs payload ≠ "object" then broadcastEnvelope payload else payload

/-- The hook's `broadcast` (src/react-hooks.ts lines 66-83): it builds
the `{data, type}` envelope, returns `false` without forwarding when no
wrapper instance is ready, and otherwise forwards the envelope and the
scope to the wrapper's broadcast and returns its boolean result
(`wrapperResult`).  The second component records the forwarded call
(wrapper id, forwarded payload, scope), `none` when nothing was sent. -/
def hookBroadcast (zapwire : Option Nat) (wrapperResult : Bool)
    (payload : JsVal) (scope : String) :
    Bool × Option (Nat × JsVal × String) :=
  let env := broadcastEnvelope payload
  match zapwire with
  | none => (false, none)
  | some w => (wrapperResult, some (w, env, scope))

/-- Claim C8: the hook's broadcast wraps every payload — hence in
particular every non-structured payload — in the `{data, type}`
envelope before forwarding (`broadcast(42)` is forwarded as
`{data: 42, type: "number"}`), and it returns `false` without
forwarding when no wrapper instance is yet ready; the `useZapwire`
variant wraps exactly the non-structured payloads in the same
envelope. -/
theorem C8_hook_envelope (p : JsVal) (w : Nat) (res : Bool) (s : String) :
    hookBroadcast none res p s = (false, none) ∧
    hookBroadcast (some w) res p s =
      (res, some (w, JsVal.vObj [("data", p), ("type", JsVal.vStr (typeofJs p))], s)) ∧
    hookBroadcast (some w) res (JsVal.vNum 42) s =
      (res, some (w, JsVal.vObj [("data", JsVal.vNum 42),
        ("type", JsVal.vStr "number")], s)) ∧
    (typeofJs p ≠ "object" → useZapwireBroadcastPayload p = broadcastEnvelope p) := by
  refine ⟨rfl, rfl, rfl, ?_⟩
  intro h
  simp [useZapwireBroadcastPayload, h]

/-- Witness for C8_hook_envelope at the non-structured payload `42`. -/
theorem C8_hook_envelope_witness :
    hookBroadcast none true (JsVal.vNum 42) "self" = (false, none) ∧
    hookBroadcast (some 0) true (JsVal.vNum 42) "self" =
      (true, some (0, JsVal.vObj [("data", JsVal.vNum 42),
        ("type", JsVal.vStr (typeofJs (JsVal.vNum 42)))], "self")) ∧
    hookBroadcast (some 0) true (JsVal.vNum 42) "self" =
      (true, some (0, JsVal.vObj [("data", JsVal.vNum 42),
        ("type", JsVal.vStr "number")], "self")) ∧
    useZapwireBroadcastPayload (JsVal.vNum 42) = broadcastEnvelope (JsVal.vNum 42) := by
  have h := C8_hook_envelope (JsVal.vNum 42) 0 true "self"
  exact ⟨h.1, h.2.1, h.2.2.1, h.2.2.2 (by decide)⟩

/-- A socket.io client connection as the wrapper uses it: whether it is
connected and its registered `(event, callback)` listeners (callbacks
identified by id). -/
structure Socket where
  connected : Bool
  listeners : List (String × Nat)

/-- The collection of all live transport connections, indexed by socket
id (`io(this.wss)` allocates a fresh one per wrapper construction). -/
abbrev SocketWorld := Nat → Socket

/-- `socket.on(event, cb)`: appends a listener. -/
def socketOn (event : String) (cb : Nat) (s : Socket) : Socket :=
  { s with listeners := s.listeners ++ [(event, cb)] }

/-- `socket.removeAllListeners()` followed by `socket.disconnect()`,
the body of `Zapwire.cleanup`. -/
def socketShutdown (_s : Socket) : Socket :=
  { connected := false, listeners := [] }

/-- The auxiliary disconnect-watcher wrapper (`disconnectWatcher =
true`): its own socket id and channel id, with no further watcher. -/
structure WatcherM where
  sock : Nat
  channelID : String

/-- A `Zapwire` instance as far as the listen/cleanup claims observe
it: its own socket id, its channel id, and `this.disconnectChannel` —
the auxiliary watcher instance, present exactly on primary
(non-watcher) wrappers. -/
structure ZapM where
  sock : Nat
  channelID : String
  disconnectChannel : Option WatcherM

/-- A watcher viewed as the `Zapwire` instance it is. -/
def WatcherM.toZap (wm : WatcherM) : ZapM :=
  ⟨wm.sock, wm.channelID, none⟩

/-- `Zapwire` constructor (src/client.ts lines 28-46), restricted to
the socket/watcher structure: the instance takes the fresh socket id
`fresh`; if `disconnectWatcher` is false it additionally constructs the
watcher `new Zapwire(channelID + ":disconnected", config, true)` on the
next fresh socket id.  Returns the instance and the next unused id. -/
def constructZap (channelID : String) (disconnectWatcher : Bool) (fresh : Nat) :
    ZapM × Nat :=
  if disconnectWatcher then
    (⟨fresh, channelID, none⟩, fresh + 1)
  else
    (⟨fresh, channelID, some ⟨fresh + 1, channelID ++ ":disconnected"⟩⟩, fresh + 2)

/-- `Zapwire.listen` (src/client.ts lines 122-125):
`this.socket.on("message", callback)`. -/
def zapListen (w : SocketWorld) (z : ZapM) (cb : Nat) : SocketWorld :=
  fun i => if i = z.sock then socketOn "message" cb (w i) else w i

/-- `Zapwire.listenDisconnect` (src/client.ts lines 131-137):
`if (this.disconnectChannel) this.disconnectChannel.listen(callback);`. -/
def listenDisconnect (w : SocketWorld) (z : ZapM) (cb : Nat) : SocketWorld :=
  match z.disconnectChannel with
  | some wm => zapListen w wm.toZap cb
  | none => w

/-- `Zapwire.cleanup` (src/client.ts lines 142-145): removes all
listeners from and disconnects the instance's OWN socket only. -/
def zapCleanup (w : SocketWorld) (z : ZapM) : SocketWorld :=
  fun i => if i = z.sock then socketShutdown (w i) else w i

/-- The hook's `disconnect` (src/react-hooks.ts lines 89-97): `false`
without effect when no wrapper is ready, otherwise `zapwire.cleanup()`
on the primary wrapper and `true`. -/
def hookDisconnect (w : SocketWorld) (zap : Option ZapM) : SocketWorld × Bool :=
  match zap with
  | none => (w, false)
  | some z => (zapCleanup w z, true)

/-- Claim C9: a primary wrapper is constructed with an auxiliary
watcher (a watcher with none), and `listenDisconnect cb` on a primary
wrapper performs exactly the registration `listen cb` performs on its
auxiliary watcher, while on a watcher instance (no auxiliary watcher)
it leaves every socket unchanged. -/
theorem C9_listenDisconnect_delegates (w : SocketWorld) (cb ps ws f : Nat)
    (cid wcid : String) :
    (constructZap cid false f).1.disconnectChannel =
      some ⟨f + 1, cid ++ ":disconnected"⟩ ∧
    (constructZap cid true f).1.disconnectChannel = none ∧
    listenDisconnect w ⟨ps, cid, some ⟨ws, wcid⟩⟩ cb =
      zapListen w (WatcherM.toZap ⟨ws, wcid⟩) cb ∧
    listenDisconnect w ⟨ps, cid, none⟩ cb = w := by
  exact ⟨rfl, rfl, rfl, rfl⟩

/-- Claim C10: `cleanup()` on a primary wrapper constructed with its
watcher shuts down only the primary's own socket `f`: every other
socket — in particular the watcher's socket `f + 1`, its listeners and
its connected flag — is left unchanged, and the same holds along the
hook's `disconnect` path. -/
theorem C10_cleanup_frame (w : SocketWorld) (cid : String) (f : Nat) :
    (constructZap cid false f).1.disconnectChannel.map WatcherM.sock =
      some (f + 1) ∧
    zapCleanup w (constructZap cid false f).1 f = socketShutdown (w f) ∧
    zapCleanup w (constructZap cid false f).1 (f + 1) = w (f + 1) ∧
    (∀ j, j = f ∨ zapCleanup w (constructZap cid false f).1 j = w j) ∧
    (zapCleanup w (constructZap cid false f).1 (f + 1)).connected =
      (w (f + 1)).connected ∧
    (zapCleanup w (constructZap cid false f).1 (f + 1)).listeners =
      (w (f + 1)).listeners ∧
    (hookDisconnect w (some (constructZap cid false f).1)).1 (f + 1) = w (f + 1) := by
  have hne : f + 1 ≠ f := Nat.succ_ne_self f
  refine ⟨rfl, ?_, ?_, ?_, ?_, ?_, ?_⟩
  · simp [zapCleanup, constructZap]
  · simp [zapCleanup, constructZap, hne]
  · intro j
    by_cases hj : j = f
    · exact Or.inl hj
    · exact Or.inr (by simp [zapCleanup, constructZap, hj])
  · simp [zapCleanup, constructZap, hne]
  · simp [zapCleanup, constructZap, hne]
  · simp [hookDisconnect, zapCleanup, constructZap, hne]
